import Mathlib

/-!
# Verification of `cub::DeviceReduceDispatch` (src/cub/device/device_reduce.cuh)

A shallow embedding of the device-wide reduction dispatcher and of the two
kernel entry points (`ReduceTilesKernel`, `SingleTileKernel`), faithful to the
control flow of `DeviceReduceDispatch::Dispatch`.

External collaborators that are declared but whose bodies are not part of this
repository's sources (`BlockReduceTiles::ConsumeTiles`, `GridEvenShare`,
`GridQueue`, `AliasTemporaries`, the CUDA device queries) are modelled from the
specification, each with a doc comment saying so.  The dispatcher's own control
flow — path selection, grid sizing, the sizing-query protocol, the launch
sequence, error short-circuiting — is translated line by line from the source.
-/

namespace Cub

/-! ## Data model: enums and kernel dispatch configuration -/

/-- `GridMappingStrategy`: how tiles of input are mapped onto thread blocks. -/
inductive GridMappingStrategy where
  | EVEN_SHARE
  | DYNAMIC
deriving DecidableEq, Repr

/-- `BlockReduceAlgorithm`: cooperative block-wide reduction algorithm. -/
inductive BlockReduceAlgorithm where
  | RAKING
  | WARP_REDUCTIONS
deriving DecidableEq, Repr

/-- `PtxLoadModifier`: PTX load modifier. -/
inductive PtxLoadModifier where
  | DEFAULT
  | LDG
deriving DecidableEq, Repr

/-- `KernelDispatchConfig` (device_reduce.cuh lines 357-389): the fields a
`BlockReduceTilesPolicy` is copied into by `Init`. -/
structure KernelDispatchConfig where
  block_threads : Nat
  items_per_thread : Nat
  vector_load_length : Nat
  block_algorithm : BlockReduceAlgorithm
  load_modifier : PtxLoadModifier
  grid_mapping : GridMappingStrategy
deriving DecidableEq, Repr

/-! ## Tuning policies (device_reduce.cuh lines 177-325)

Each `BlockReduceTilesPolicy` instantiation is embedded as the
`KernelDispatchConfig` value that `KernelDispatchConfig.Init` extracts from it. -/

namespace Policy350

def ReduceTilesPolicy1B : KernelDispatchConfig :=
  ⟨128, 12, 1, .RAKING, .LDG, .DYNAMIC⟩

def ReduceTilesPolicy4B : KernelDispatchConfig :=
  ⟨512, 20, 1, .RAKING, .DEFAULT, .EVEN_SHARE⟩

/-- `If<(sizeof(T) < 4), ReduceTilesPolicy1B, ReduceTilesPolicy4B>` -/
def ReduceTilesPolicy (elem_size : Nat) : KernelDispatchConfig :=
  if elem_size < 4 then ReduceTilesPolicy1B else ReduceTilesPolicy4B

def SingleTilePolicy : KernelDispatchConfig :=
  ⟨256, 8, 1, .WARP_REDUCTIONS, .DEFAULT, .EVEN_SHARE⟩

end Policy350

namespace Policy300

def ReduceTilesPolicy : KernelDispatchConfig :=
  ⟨256, 2, 1, .WARP_REDUCTIONS, .DEFAULT, .EVEN_SHARE⟩

def SingleTilePolicy : KernelDispatchConfig :=
  ⟨256, 24, 4, .WARP_REDUCTIONS, .DEFAULT, .EVEN_SHARE⟩

end Policy300

namespace Policy200

def ReduceTilesPolicy1B : KernelDispatchConfig :=
  ⟨192, 24, 4, .RAKING, .DEFAULT, .EVEN_SHARE⟩

def ReduceTilesPolicy4B : KernelDispatchConfig :=
  ⟨128, 8, 4, .RAKING, .DEFAULT, .DYNAMIC⟩

/-- `If<(sizeof(T) < 4), ReduceTilesPolicy1B, ReduceTilesPolicy4B>` -/
def ReduceTilesPolicy (elem_size : Nat) : KernelDispatchConfig :=
  if elem_size < 4 then ReduceTilesPolicy1B else ReduceTilesPolicy4B

def SingleTilePolicy : KernelDispatchConfig :=
  ⟨192, 7, 1, .RAKING, .DEFAULT, .EVEN_SHARE⟩

end Policy200

namespace Policy130

def ReduceTilesPolicy : KernelDispatchConfig :=
  ⟨128, 8, 2, .RAKING, .DEFAULT, .EVEN_SHARE⟩

def SingleTilePolicy : KernelDispatchConfig :=
  ⟨32, 4, 4, .RAKING, .DEFAULT, .EVEN_SHARE⟩

end Policy130

namespace Policy100

def ReduceTilesPolicy : KernelDispatchConfig :=
  ⟨128, 8, 2, .RAKING, .DEFAULT, .EVEN_SHARE⟩

def SingleTilePolicy : KernelDispatchConfig :=
  ⟨32, 4, 4, .RAKING, .DEFAULT, .EVEN_SHARE⟩

end Policy100

/-- `InitDispatchConfigs` (device_reduce.cuh lines 399-442, host path): looks up
the dispatch configurations matching the device's PTX version.  Returns the pair
`(reduce_tiles_config, single_tile_config)`.  The element size stands for
`sizeof(T)`, which selects between the 1-byte and 4-byte reduce-tiles shapes. -/
def InitDispatchConfigs (ptx_version elem_size : Nat) :
    KernelDispatchConfig × KernelDispatchConfig :=
  if 350 ≤ ptx_version then
    (Policy350.ReduceTilesPolicy elem_size, Policy350.SingleTilePolicy)
  else if 300 ≤ ptx_version then
    (Policy300.ReduceTilesPolicy, Policy300.SingleTilePolicy)
  else if 200 ≤ ptx_version then
    (Policy200.ReduceTilesPolicy elem_size, Policy200.SingleTilePolicy)
  else if 130 ≤ ptx_version then
    (Policy130.ReduceTilesPolicy, Policy130.SingleTilePolicy)
  else
    (Policy100.ReduceTilesPolicy, Policy100.SingleTilePolicy)

/-! ## Status codes and external primitives -/

/-- CUDA status code, as observed by the dispatcher.  `invalidScratchSize` is
the error the scratch-aliasing step returns when the caller's buffer is too
small (the spec's `InvalidScratchSize`); `other` stands for any further CUDA
error code a primitive may surface. -/
inductive CudaError where
  | success
  | notSupported
  | invalidScratchSize
  | other (code : Nat)
deriving DecidableEq, Repr

/-- Modelled from the spec: the Drain Queue Descriptor is "one counter +
bookkeeping, fixed small size" (`GridQueue<int>::AllocationSize()`;
grid_queue.cuh is not among the sources).  Two 4-byte counters. -/
def gridQueueAllocationSize : Nat := 8

/-- Modelled from the spec: the Scratch Allocator "computes an aligned layout;
pure, never fails" (`AliasTemporaries` in util_device.cuh is not among the
sources).  Each extent is padded up to a fixed alignment. -/
def ALIGN_BYTES : Nat := 256

/-- Round `x` up to the next multiple of `ALIGN_BYTES`. -/
def alignUp (x : Nat) : Nat := ((x + ALIGN_BYTES - 1) / ALIGN_BYTES) * ALIGN_BYTES

/-- Modelled from the spec: total bytes of the aligned layout over the given
extents (`plan(extents) -> total_bytes`). -/
def scratchTotal (allocation_sizes : List Nat) : Nat :=
  (allocation_sizes.map alignUp).sum

/-- Modelled from the spec: the combined plan/bind step `AliasTemporaries`
(util_device.cuh, not among the sources).  In sizing mode it returns the
planned total; in execution mode it fails when the caller-provided buffer is
smaller than that total.  The first component is the status the dispatcher's
`CubDebug(error = AliasTemporaries(...))` check observes. -/
def AliasTemporaries (temp_storage_null : Bool) (temp_storage_bytes : Nat)
    (allocation_sizes : List Nat) : CudaError × Nat :=
  let total := scratchTotal allocation_sizes
  if temp_storage_null then (.success, total)
  else if temp_storage_bytes < total then (.invalidScratchSize, total)
  else (.success, total)

/-- The external device primitives the dispatcher calls, each returning a
status code the way the CUDA runtime does (`cudaGetDevice`,
`cudaDeviceGetAttribute(cudaDevAttrMultiProcessorCount)`, `MaxSmOccupancy`,
`SyncStream`).  `syncStream k` is the status of the k-th stream
synchronization performed by one Dispatch call. -/
structure DeviceEnv where
  getDevice : CudaError × Nat
  smCount : Nat → CudaError × Nat
  maxSmOccupancy : Nat → CudaError × Nat
  syncStream : Nat → CudaError

/-! ## Grid planning helpers (device_reduce.cuh lines 543-568) -/

/-- `num_tiles = (num_items + tile_size - 1) / tile_size` (line 563). -/
def numTiles (num_items tile_size : Nat) : Nat :=
  (num_items + tile_size - 1) / tile_size

/-- The `GRID_MAPPING_DYNAMIC` grid size (lines 563-566):
`(num_tiles < reduce_tiles_occupancy) ? num_tiles : reduce_tiles_occupancy`. -/
def dynamicGridSize (num_tiles occupancy : Nat) : Nat :=
  if num_tiles < occupancy then num_tiles else occupancy

/-- Modelled from the spec: the Even-Share Plan's `grid_size`
(`GridEvenShare` in grid_even_share.cuh is not among the sources): a static
partition into at most `max_grid_size` groups of whole tiles, hence
`grid_size = min(num_tiles, max_grid_size)`. -/
def evenShareGridSize (num_items max_grid_size tile_size : Nat) : Nat :=
  min (numTiles num_items tile_size) max_grid_size

/-! ## The kernel-launch trace -/

/-- The four kernels a Dispatch call may submit. -/
inductive LaunchKind where
  | prepareDrain
  | reduceTiles
  | aggregate
  | singleInput
deriving DecidableEq, Repr

/-- One kernel submission: kind, launch configuration (grid size, threads per
block, stream — 0 is the default stream), and the size argument handed to the
kernel (`num_items` for `prepareDrain`/`reduceTiles`/`singleInput`,
`reduce_tiles_grid_size` for `aggregate`). -/
structure Launch where
  kind : LaunchKind
  grid_size : Nat
  block_threads : Nat
  stream : Nat
  arg_num_items : Nat
deriving DecidableEq, Repr

/-- Everything one call of `DeviceReduceDispatch::Dispatch` does that is
observable from outside: the returned status, the value written to the in-out
`temp_storage_bytes` (if any), the kernels submitted in submission order, and
the temporary-allocation extents it computed (if it reached that point). -/
structure DispatchResult where
  status : CudaError
  tempBytesOut : Option Nat
  launches : List Launch
  allocSizes : Option (List Nat)
deriving DecidableEq, Repr

/-- The arguments of `DeviceReduceDispatch::Dispatch` that its control flow
inspects.  `temp_storage_null` is `d_temp_storage == NULL`;
`reduce_tiles_kernel_null` is `reduce_tiles_kernel == NULL`; `elem_size` is
`sizeof(T)`. -/
structure DispatchArgs where
  temp_storage_null : Bool
  temp_storage_bytes : Nat
  num_items : Nat
  stream : Nat
  debug_synchronous : Bool
  reduce_tiles_kernel_null : Bool
  elem_size : Nat
deriving DecidableEq, Repr

/-- The single-block branch of `Dispatch` (device_reduce.cuh lines 492-517).
The `single_kernel<<<1, single_tile_config.block_threads>>>` launch
configuration at line 508 has no stream argument, so the submission goes to
the default stream 0. -/
def singleStagePart (env : DeviceEnv) (a : DispatchArgs)
    (single_tile_config : KernelDispatchConfig) : DispatchResult :=
  if a.temp_storage_null then
    { status := .success, tempBytesOut := some 1, launches := [], allocSizes := none }
  else
    let ls : List Launch :=
      [⟨.singleInput, 1, single_tile_config.block_threads, 0, a.num_items⟩]
    if a.debug_synchronous then
      let e := env.syncStream 0
      if e ≠ .success then
        { status := e, tempBytesOut := none, launches := ls, allocSizes := none }
      else
        { status := .success, tempBytesOut := none, launches := ls, allocSizes := none }
    else
      { status := .success, tempBytesOut := none, launches := ls, allocSizes := none }

/-- The launch sequence of the two-kernel branch (device_reduce.cuh lines
592-633): optional drain-queue preparation (`GRID_MAPPING_DYNAMIC` only,
`<<<1, 1, 0, stream>>>`), then `reduce_tiles_kernel<<<grid, block_threads, 0,
stream>>>`, then `aggregate_kernel<<<1, single_tile_config.block_threads, 0,
stream>>>` over `reduce_tiles_grid_size` partials; after each launch, a stream
synchronization in debug mode whose failure breaks out of the call. -/
def twoStageLaunch (env : DeviceEnv) (a : DispatchArgs)
    (reduce_tiles_config single_tile_config : KernelDispatchConfig)
    (grid : Nat) (sizes : List Nat) : DispatchResult :=
  let pre : List Launch :=
    if reduce_tiles_config.grid_mapping = .DYNAMIC then
      [⟨.prepareDrain, 1, 1, a.stream, a.num_items⟩]
    else []
  let rt : Launch := ⟨.reduceTiles, grid, reduce_tiles_config.block_threads, a.stream, a.num_items⟩
  let ag : Launch := ⟨.aggregate, 1, single_tile_config.block_threads, a.stream, grid⟩
  if a.debug_synchronous then
    let preSync : CudaError × Nat :=
      if reduce_tiles_config.grid_mapping = .DYNAMIC then (env.syncStream 0, 1)
      else (.success, 0)
    if preSync.1 ≠ .success then
      { status := preSync.1, tempBytesOut := none, launches := pre, allocSizes := some sizes }
    else
      let e1 := env.syncStream preSync.2
      if e1 ≠ .success then
        { status := e1, tempBytesOut := none, launches := pre ++ [rt], allocSizes := some sizes }
      else
        let e2 := env.syncStream (preSync.2 + 1)
        if e2 ≠ .success then
          { status := e2, tempBytesOut := none, launches := pre ++ [rt, ag], allocSizes := some sizes }
        else
          { status := .success, tempBytesOut := none, launches := pre ++ [rt, ag], allocSizes := some sizes }
  else
    { status := .success, tempBytesOut := none, launches := pre ++ [rt, ag], allocSizes := some sizes }

/-- The `reduce_tiles_kernel` grid size (device_reduce.cuh lines 543-568).
`reduce_tiles_occupancy = sm_occupancy * sm_count` (line 541);
`subscription_factor = sm_occupancy` (line 544); the even-share plan is built
over `reduce_tiles_occupancy * subscription_factor` groups (lines 545-548) and
supplies the `GRID_MAPPING_EVEN_SHARE` grid, while `GRID_MAPPING_DYNAMIC`
caps `num_tiles` at `reduce_tiles_occupancy` alone (lines 560-566). -/
def reduceTilesGridSize (num_items : Nat) (grid_mapping : GridMappingStrategy)
    (tile_size sm_occupancy sm_count : Nat) : Nat :=
  match grid_mapping with
  | .EVEN_SHARE =>
      evenShareGridSize num_items (sm_occupancy * sm_count * sm_occupancy) tile_size
  | .DYNAMIC =>
      dynamicGridSize (numTiles num_items tile_size) (sm_occupancy * sm_count)

/-- The temporary-storage extents (device_reduce.cuh lines 570-576): bytes for
the privatized per-block reductions, bytes for the grid-queue descriptor. -/
def allocationSizes (grid elem_size : Nat) : List Nat :=
  [grid * elem_size, gridQueueAllocationSize]

/-- The two-kernel branch of `Dispatch` (device_reduce.cuh lines 518-634):
device queries, occupancy, grid sizing by mapping strategy, scratch aliasing
(with the sizing-mode early return), then the launch sequence. -/
def twoStagePart (env : DeviceEnv) (a : DispatchArgs)
    (reduce_tiles_config single_tile_config : KernelDispatchConfig)
    (tile_size : Nat) : DispatchResult :=
  let d := env.getDevice
  if d.1 ≠ .success then
    { status := d.1, tempBytesOut := none, launches := [], allocSizes := none }
  else
    let sc := env.smCount d.2
    if sc.1 ≠ .success then
      { status := sc.1, tempBytesOut := none, launches := [], allocSizes := none }
    else
      let so := env.maxSmOccupancy reduce_tiles_config.block_threads
      if so.1 ≠ .success then
        { status := so.1, tempBytesOut := none, launches := [], allocSizes := none }
      else
        let grid : Nat :=
          reduceTilesGridSize a.num_items reduce_tiles_config.grid_mapping
            tile_size so.2 sc.2
        let sizes : List Nat := allocationSizes grid a.elem_size
        let aliasRes := AliasTemporaries a.temp_storage_null a.temp_storage_bytes sizes
        if aliasRes.1 ≠ .success then
          { status := aliasRes.1, tempBytesOut := none, launches := [], allocSizes := some sizes }
        else if a.temp_storage_null then
          { status := .success, tempBytesOut := some aliasRes.2, launches := [], allocSizes := some sizes }
        else
          twoStageLaunch env a reduce_tiles_config single_tile_config grid sizes

/-- `DeviceReduceDispatch::Dispatch` (device_reduce.cuh lines 462-641,
`CUB_RUNTIME_ENABLED` branch): selects the single-block path when the
reduce-tiles kernel is unavailable or the input fits in one tile
(`num_items <= tile_size`, line 492), the two-kernel path otherwise. -/
def Dispatch (env : DeviceEnv) (a : DispatchArgs)
    (reduce_tiles_config single_tile_config : KernelDispatchConfig) : DispatchResult :=
  let tile_size := reduce_tiles_config.block_threads * reduce_tiles_config.items_per_thread
  if a.reduce_tiles_kernel_null = true ∨ a.num_items ≤ tile_size then
    singleStagePart env a single_tile_config
  else
    twoStagePart env a reduce_tiles_config single_tile_config tile_size

/-! ## Reduction semantics

`reduce1 op l` is the operator's fold over the items of `l` (`none` on the
empty list — a reduction has no identity element).  It is the meaning of the
opaque intra-group reduction capability: "given a tile of N items and a
combining operator, produce one aggregate". -/

/-- Lift a binary operator to `Option`, with `none` as identity. -/
def oplift (op : α → α → α) : Option α → Option α → Option α
  | none, y => y
  | some a, none => some a
  | some a, some b => some (op a b)

/-- Fold a list of optional values with `oplift`. -/
def reduceOpts (op : α → α → α) (os : List (Option α)) : Option α :=
  os.foldr (oplift op) none

/-- The operator's fold over a list of items (`none` when the list is empty). -/
def reduce1 (op : α → α → α) (l : List α) : Option α :=
  reduceOpts op (l.map some)

/-! ## Kernel semantics (device_reduce.cuh lines 75-150)

The bodies of the two kernels are in the source; the `BlockReduceTiles`
collaborator they call is not, so its `ConsumeTiles` is modelled from the spec
as the operator's fold over the range / tiles handed to the block. -/

/-- Modelled from the spec: `BlockReduceTiles::ConsumeTiles(block_offset,
block_end)` — the intra-group reduction capability folds the contiguous range
`[block_offset, block_end)` of the input into one aggregate
(block_reduce_tiles.cuh is not among the sources). -/
def consumeRange (op : α → α → α) (d_in : Nat → α) (block_offset block_end : Nat) :
    Option α :=
  reduce1 op ((List.range' block_offset (block_end - block_offset)).map d_in)

/-- `SingleTileKernel` (device_reduce.cuh lines 121-150): one block consumes
`ConsumeTiles(0, num_items)` and thread 0 writes the aggregate to
`d_out[blockIdx.x]` (index 0 — the kernel is always launched with one block). -/
def SingleTileKernelRun (op : α → α → α) (d_in : Nat → α) (num_items : Nat) :
    Option α :=
  consumeRange op d_in 0 num_items

/-- Length of tile `t`: `tile_size` items, except the last tile which holds
the remainder. -/
def tileLen (num_items tile_size t : Nat) : Nat :=
  min tile_size (num_items - t * tile_size)

/-- The input positions of tile `t`. -/
def tileIndices (num_items tile_size t : Nat) : List Nat :=
  List.range' (t * tile_size) (tileLen num_items tile_size t)

/-- The input items covered by a block's list of tiles, in tile order. -/
def blockTileItems (d_in : Nat → α) (num_items tile_size : Nat)
    (tiles : List Nat) : List α :=
  ((tiles.map (tileIndices num_items tile_size)).map (List.map d_in)).flatten

/-- `ReduceTilesKernel` (device_reduce.cuh lines 75-108): block `b` consumes
the tiles the mapping strategy hands it (`tilesOf b` — the even-share ranges
or the drain-queue claims; modelled from the spec since grid_even_share.cuh,
grid_queue.cuh and block_reduce_tiles.cuh are not among the sources), folds
them into one aggregate, and thread 0 writes it to `d_out[blockIdx.x]`. -/
def ReduceTilesKernelRun (op : α → α → α) (d_in : Nat → α)
    (num_items tile_size : Nat) (tilesOf : Nat → List Nat) (b : Nat) : Option α :=
  reduce1 op (blockTileItems d_in num_items tile_size (tilesOf b))

/-- A tile-to-block schedule is valid for `grid` blocks and `nt` tiles when the
blocks' tile lists, concatenated, are a permutation of `0 … nt-1` (the spec's
Drain-Queue exactness / even-share partition) and no launched block goes
without work. -/
def IsPartitionSchedule (tilesOf : Nat → List Nat) (grid nt : Nat) : Prop :=
  List.Perm (((List.range grid).map tilesOf).flatten) (List.range nt) ∧
    ∀ b, b < grid → tilesOf b ≠ []

/-! ## Device-memory effect of the submitted kernels

Interpreting the launch trace: the partials array (`d_block_reductions`) and
the final output location (`d_out` of the call), as left by the kernels in
stream order. -/

/-- Device memory touched by the kernels of one call. -/
structure DevMem (α : Type) where
  partials : Nat → Option α
  out : Option α

/-- Read partial results back from the partials array (`none` if any slot read
was never written). -/
def gatherPartials (m : Nat → Option α) : List Nat → Option (List α)
  | [] => some []
  | b :: bs =>
    match m b, gatherPartials m bs with
    | some v, some vs => some (v :: vs)
    | _, _ => none

/-- Effect of one kernel submission on device memory.  `prepareDrain` only
touches the drain-queue counters; `reduceTiles` over grid `g` has block
`b < g` write its aggregate at index `b` of the partials array; `aggregate`
is `SingleTileKernel` over the first `g` partials, writing `d_out`;
`singleInput` is `SingleTileKernel` over the raw input, writing `d_out`. -/
def execLaunch (op : α → α → α) (d_in : Nat → α) (tile_size : Nat)
    (tilesOf : Nat → List Nat) (m : DevMem α) : Launch → DevMem α
  | ⟨.prepareDrain, _, _, _, _⟩ => m
  | ⟨.reduceTiles, g, _, _, n⟩ =>
    { m with partials := fun b =>
        if b < g then ReduceTilesKernelRun op d_in n tile_size tilesOf b
        else m.partials b }
  | ⟨.aggregate, _, _, _, g⟩ =>
    { m with out := (gatherPartials m.partials (List.range g)).bind (reduce1 op) }
  | ⟨.singleInput, _, _, _, n⟩ =>
    { m with out := SingleTileKernelRun op d_in n }

/-- Device memory before any kernel of the call has run: nothing written. -/
def initMem : DevMem α := ⟨fun _ => none, none⟩

/-- Device memory after the whole launch trace has retired, in stream order. -/
def execLaunches (op : α → α → α) (d_in : Nat → α) (tile_size : Nat)
    (tilesOf : Nat → List Nat) (ls : List Launch) : DevMem α :=
  ls.foldl (execLaunch op d_in tile_size tilesOf) initMem

/-- The grid size the dispatcher computes for `reduce_tiles_kernel` under a
given environment (abbreviation for stating theorems). -/
def dispatchGrid (env : DeviceEnv) (a : DispatchArgs) (cfgR : KernelDispatchConfig) : Nat :=
  reduceTilesGridSize a.num_items cfgR.grid_mapping
    (cfgR.block_threads * cfgR.items_per_thread)
    (env.maxSmOccupancy cfgR.block_threads).2
    (env.smCount (env.getDevice).2).2

/-! ## Concrete instances used in the witnesses below -/

/-- An environment whose queries all succeed: device 0, 2 SMs, 3 resident
blocks per SM, every stream synchronization succeeds. -/
def envOK : DeviceEnv :=
  ⟨(.success, 0), fun _ => (.success, 2), fun _ => (.success, 3), fun _ => .success⟩

/-- An environment with 1 SM and per-SM occupancy 2 (so device occupancy 2,
oversubscription target 4). -/
def envTwoOcc : DeviceEnv :=
  ⟨(.success, 0), fun _ => (.success, 1), fun _ => (.success, 2), fun _ => .success⟩

/-- An environment whose device-ordinal query fails with error code 7. -/
def envNoDevice : DeviceEnv :=
  ⟨(.other 7, 0), fun _ => (.success, 1), fun _ => (.success, 1), fun _ => .success⟩

/-- A minimal dynamic-mapping reduce-tiles configuration: tile size 1. -/
def smallDynConfig : KernelDispatchConfig :=
  ⟨1, 1, 1, .RAKING, .DEFAULT, .DYNAMIC⟩

/-- A minimal single-tile configuration with 4 threads. -/
def smallSingleConfig : KernelDispatchConfig :=
  ⟨4, 1, 1, .RAKING, .DEFAULT, .EVEN_SHARE⟩

/-- Execution-mode arguments: 5 items, 1024-byte scratch, stream 0,
4-byte elements, reduce-tiles kernel available, no debug mode. -/
def baseArgs : DispatchArgs :=
  ⟨false, 1024, 5, 0, false, false, 4⟩

/-- The input `[1,2,3,4,5]` of the spec's Scenario A. -/
def exampleInput : Nat → Nat := fun i => [1, 2, 3, 4, 5].getD i 0

/-- Execution-mode arguments with 3 items (three tiles of `smallDynConfig`). -/
def argsThree : DispatchArgs :=
  ⟨false, 1024, 3, 0, false, false, 4⟩

/-- Sizing-query arguments: null scratch pointer, 5 items. -/
def argsSizingFive : DispatchArgs :=
  ⟨true, 0, 5, 0, false, false, 4⟩

/-- Execution-mode arguments with 5 items and a zero-byte scratch buffer
(one byte smaller than the 1 byte the sizing query reports on the
single-stage path). -/
def argsZeroBytes : DispatchArgs :=
  ⟨false, 0, 5, 0, false, false, 4⟩

/-- Execution-mode arguments with 5 items on stream 7. -/
def argsStreamSeven : DispatchArgs :=
  ⟨false, 1024, 5, 7, false, false, 4⟩

/-- Execution-mode arguments with 3 items on stream 7. -/
def argsThreeStreamSeven : DispatchArgs :=
  ⟨false, 1024, 3, 7, false, false, 4⟩

/-- Sizing-query arguments for 10,000,000 items (the spec's Scenario C). -/
def argsSizingBig : DispatchArgs :=
  ⟨true, 0, 10000000, 0, false, false, 4⟩

/-- Execution-mode arguments at the tile boundary of `Policy300`
(`tile_size = 256 * 2 = 512`): exactly one tile. -/
def argsBoundary : DispatchArgs :=
  ⟨false, 1024, 512, 0, false, false, 4⟩

/-- Execution-mode arguments one past the tile boundary of `Policy300`. -/
def argsBoundaryPlus : DispatchArgs :=
  ⟨false, 1024, 513, 0, false, false, 4⟩

/-- `argsBoundaryPlus` with a scratch buffer one byte smaller than the
512 bytes the sizing query reports for it under `envOK`/`Policy300`. -/
def argsBoundaryPlusSmall : DispatchArgs :=
  ⟨false, 511, 513, 0, false, false, 4⟩

/-! ## Lemmas about `reduce1` -/

theorem oplift_assoc {α : Type} {op : α → α → α}
    (ha : ∀ a b c, op (op a b) c = op a (op b c)) :
    ∀ x y z : Option α, oplift op (oplift op x y) z = oplift op x (oplift op y z) := by
  intro x y z
  cases x <;> cases y <;> cases z <;> simp [oplift, ha]

theorem oplift_left_comm {α : Type} {op : α → α → α}
    (ha : ∀ a b c, op (op a b) c = op a (op b c))
    (hc : ∀ a b, op a b = op b a) :
    ∀ x y z : Option α, oplift op x (oplift op y z) = oplift op y (oplift op x z) := by
  intro x y z
  cases x <;> cases y <;> cases z <;> simp only [oplift, Option.some.injEq]
  · exact hc _ _
  · rename_i a b c
    rw [← ha, hc a b, ha]

theorem reduce1_cons {α : Type} (op : α → α → α) (x : α) (xs : List α) :
    reduce1 op (x :: xs) = oplift op (some x) (reduce1 op xs) := rfl

theorem foldr_oplift_map_some {α : Type} {op : α → α → α}
    (ha : ∀ a b c, op (op a b) c = op a (op b c)) (l : List α) (y : Option α) :
    (l.map some).foldr (oplift op) y = oplift op (reduce1 op l) y := by
  induction l generalizing y with
  | nil => simp [reduce1, reduceOpts, oplift]
  | cons x xs ih =>
    simp only [List.map_cons, List.foldr_cons, ih, reduce1_cons]
    rw [oplift_assoc ha]

theorem reduce1_append {α : Type} {op : α → α → α}
    (ha : ∀ a b c, op (op a b) c = op a (op b c)) (l₁ l₂ : List α) :
    reduce1 op (l₁ ++ l₂) = oplift op (reduce1 op l₁) (reduce1 op l₂) := by
  simp only [reduce1, reduceOpts, List.map_append, List.foldr_append]
  exact foldr_oplift_map_some ha l₁ _

theorem reduce1_perm {α : Type} {op : α → α → α}
    (ha : ∀ a b c, op (op a b) c = op a (op b c))
    (hc : ∀ a b, op a b = op b a)
    {l₁ l₂ : List α} (h : List.Perm l₁ l₂) :
    reduce1 op l₁ = reduce1 op l₂ := by
  induction h with
  | nil => rfl
  | cons x _ ih =>
    simp only [reduce1, reduceOpts, List.map_cons, List.foldr_cons] at ih ⊢
    rw [ih]
  | swap x y l =>
    simp only [reduce1, reduceOpts, List.map_cons, List.foldr_cons]
    exact oplift_left_comm ha hc _ _ _
  | trans _ _ ih₁ ih₂ => exact ih₁.trans ih₂

theorem reduce1_flatten {α : Type} {op : α → α → α}
    (ha : ∀ a b c, op (op a b) c = op a (op b c)) (ls : List (List α)) :
    reduce1 op ls.flatten = reduceOpts op (ls.map (reduce1 op)) := by
  induction ls with
  | nil => rfl
  | cons l ls ih =>
    simp only [List.flatten_cons, List.map_cons, reduce1_append ha, ih, reduceOpts,
      List.foldr_cons]

theorem reduce1_isSome {α : Type} (op : α → α → α) (l : List α) (h : l ≠ []) :
    (reduce1 op l).isSome := by
  cases l with
  | nil => exact absurd rfl h
  | cons x xs =>
    simp only [reduce1, reduceOpts, List.map_cons, List.foldr_cons]
    cases xs.map some |>.foldr (oplift op) none <;> simp [oplift]

theorem gatherPartials_eq {α : Type} (m : Nat → Option α) (l : List Nat)
    (h : ∀ b ∈ l, (m b).isSome) :
    ∃ vs : List α, gatherPartials m l = some vs ∧ vs.map some = l.map m := by
  induction l with
  | nil => exact ⟨[], rfl, rfl⟩
  | cons b bs ih =>
    obtain ⟨v, hv⟩ := Option.isSome_iff_exists.mp (h b (List.mem_cons_self b bs))
    obtain ⟨vs, hvs, hmap⟩ := ih (fun x hx => h x (List.mem_cons_of_mem b hx))
    exact ⟨v :: vs, by simp [gatherPartials, hv, hvs], by simp [hv, hmap]⟩

theorem gatherPartials_bind_reduce1 {α : Type} (op : α → α → α)
    (m : Nat → Option α) (l : List Nat) (h : ∀ b ∈ l, (m b).isSome) :
    (gatherPartials m l).bind (reduce1 op) = reduceOpts op (l.map m) := by
  obtain ⟨vs, hvs, hmap⟩ := gatherPartials_eq m l h
  rw [hvs]
  show reduceOpts op (vs.map some) = reduceOpts op (l.map m)
  rw [hmap]

/-! ## Tiles cover the input -/

theorem flatten_tileIndices (n ts k : Nat) :
    ((List.range k).map (tileIndices n ts)).flatten = List.range' 0 (min n (k * ts)) := by
  induction k with
  | zero => simp
  | succ k ih =>
    rw [List.range_succ, List.map_append, List.flatten_append, ih]
    have hs : (k + 1) * ts = k * ts + ts := Nat.succ_mul k ts
    simp only [List.map_cons, List.map_nil, List.flatten_cons, List.flatten_nil,
      List.append_nil, tileIndices]
    rcases Nat.le_total n (k * ts) with h | h
    · have h1 : min n (k * ts) = n := by omega
      have h2 : tileLen n ts k = 0 := by unfold tileLen; omega
      have h3 : min n ((k + 1) * ts) = n := by omega
      simp [h1, h2, h3]
    · have h1 : min n (k * ts) = k * ts := by omega
      have h2 : tileLen n ts k + k * ts = min n ((k + 1) * ts) := by
        unfold tileLen; omega
      rw [h1, ← h2, ← List.range'_append_1 0 (k * ts) (tileLen n ts k), Nat.zero_add]

theorem numTiles_mul_ge (n ts : Nat) (hts : 0 < ts) : n ≤ numTiles n ts * ts := by
  unfold numTiles
  have hdm := Nat.div_add_mod (n + ts - 1) ts
  have hlt := Nat.mod_lt (n + ts - 1) hts
  have hcm : (n + ts - 1) / ts * ts = ts * ((n + ts - 1) / ts) := Nat.mul_comm _ _
  omega

theorem flatten_tileIndices_numTiles (n ts : Nat) (hts : 0 < ts) :
    ((List.range (numTiles n ts)).map (tileIndices n ts)).flatten = List.range n := by
  rw [flatten_tileIndices, Nat.min_eq_left (numTiles_mul_ge n ts hts)]
  exact (List.range_eq_range' n).symm

theorem tileIndices_ne_nil (n ts t : Nat) (hts : 0 < ts) (ht : t < numTiles n ts) :
    tileIndices n ts t ≠ [] := by
  have h2 : (t + 1) * ts ≤ (numTiles n ts) * ts := Nat.mul_le_mul_right ts ht
  have h3 : (numTiles n ts) * ts ≤ n + ts - 1 := by
    unfold numTiles; exact Nat.div_mul_le_self _ _
  have h4 : (t + 1) * ts = t * ts + ts := Nat.succ_mul t ts
  unfold tileIndices tileLen
  rw [Ne, List.range'_eq_nil]
  omega

theorem mem_schedule_lt {tilesOf : Nat → List Nat} {g nt : Nat}
    (h : IsPartitionSchedule tilesOf g nt) {b t : Nat} (hb : b < g)
    (ht : t ∈ tilesOf b) : t < nt := by
  have hmem : t ∈ ((List.range g).map tilesOf).flatten :=
    List.mem_flatten.mpr ⟨tilesOf b, List.mem_map_of_mem _ (List.mem_range.mpr hb), ht⟩
  exact List.mem_range.mp ((h.1.mem_iff).mp hmem)

theorem blockTileItems_ne_nil {α : Type} (d_in : Nat → α) (n ts : Nat)
    (tiles : List Nat) (hne : tiles ≠ [])
    (hlt : ∀ t ∈ tiles, tileIndices n ts t ≠ []) :
    blockTileItems d_in n ts tiles ≠ [] := by
  unfold blockTileItems
  cases tiles with
  | nil => exact absurd rfl hne
  | cons t rest =>
    intro hc
    simp only [List.map_cons, List.flatten_cons, List.append_eq_nil,
      List.map_eq_nil_iff] at hc
    exact hlt t (List.mem_cons_self t rest) hc.1

theorem blockTileItems_eq_map {α : Type} (d_in : Nat → α) (n ts : Nat)
    (tiles : List Nat) :
    blockTileItems d_in n ts tiles
      = ((tiles.map (tileIndices n ts)).flatten).map d_in := by
  unfold blockTileItems
  rw [List.map_flatten]

theorem flatten_map_comp {α β : Type} (f : α → List β) (L : List (List α)) :
    (L.map (fun l => (l.map f).flatten)).flatten = ((L.flatten).map f).flatten := by
  induction L with
  | nil => rfl
  | cons l L ih =>
    simp [List.map_append, List.flatten_append, ih]

/-! ## The two-stage pipeline computes the fold -/

theorem partials_fold {α : Type} (op : α → α → α)
    (ha : ∀ a b c, op (op a b) c = op a (op b c))
    (hc : ∀ a b, op a b = op b a)
    (d_in : Nat → α) (n ts g : Nat) (hts : 0 < ts)
    (tilesOf : Nat → List Nat)
    (hsched : IsPartitionSchedule tilesOf g (numTiles n ts)) :
    (gatherPartials
        (fun b => if b < g then ReduceTilesKernelRun op d_in n ts tilesOf b else none)
        (List.range g)).bind (reduce1 op)
      = reduce1 op ((List.range n).map d_in) := by
  have hksome : ∀ b ∈ List.range g,
      ((fun b => if b < g then ReduceTilesKernelRun op d_in n ts tilesOf b else none) b).isSome := by
    intro b hb
    have hblt := List.mem_range.mp hb
    simp only [if_pos hblt]
    apply reduce1_isSome
    exact blockTileItems_ne_nil d_in n ts (tilesOf b) (hsched.2 b hblt)
      (fun t ht => tileIndices_ne_nil n ts t hts (mem_schedule_lt hsched hblt ht))
  rw [gatherPartials_bind_reduce1 op _ _ hksome]
  have hmapeq : (List.range g).map
        (fun b => if b < g then ReduceTilesKernelRun op d_in n ts tilesOf b else none)
      = (List.range g).map
        (fun b => reduce1 op (blockTileItems d_in n ts (tilesOf b))) := by
    apply List.map_congr_left
    intro b hb
    simp [List.mem_range.mp hb, ReduceTilesKernelRun]
  rw [hmapeq]
  have hstep : (List.range g).map (fun b => reduce1 op (blockTileItems d_in n ts (tilesOf b)))
      = ((List.range g).map (fun b => blockTileItems d_in n ts (tilesOf b))).map (reduce1 op) := by
    rw [List.map_map]; rfl
  rw [hstep, ← reduce1_flatten ha]
  have hitems : ((List.range g).map (fun b => blockTileItems d_in n ts (tilesOf b))).flatten
      = ((((List.range g).map tilesOf).flatten.map (tileIndices n ts)).flatten).map d_in := by
    have h1 : (List.range g).map (fun b => blockTileItems d_in n ts (tilesOf b))
        = (((List.range g).map tilesOf).map
            (fun tiles => ((tiles.map (tileIndices n ts)).flatten))).map (List.map d_in) := by
      rw [List.map_map, List.map_map]
      apply List.map_congr_left
      intro b _
      exact blockTileItems_eq_map d_in n ts (tilesOf b)
    rw [h1, ← List.map_flatten, flatten_map_comp]
  rw [hitems, ← flatten_tileIndices_numTiles n ts hts]
  apply reduce1_perm ha hc
  apply List.Perm.map
  apply List.Perm.flatten
  exact List.Perm.map _ hsched.1

theorem singleTile_out {α : Type} (op : α → α → α) (d_in : Nat → α) (n : Nat) :
    SingleTileKernelRun op d_in n = reduce1 op ((List.range n).map d_in) := by
  unfold SingleTileKernelRun consumeRange
  rw [Nat.sub_zero, ← List.range_eq_range']

/-! ## Executing the traces Dispatch produces -/

theorem execLaunches_single {α : Type} (op : α → α → α) (d_in : Nat → α)
    (ts : Nat) (tilesOf : Nat → List Nat) (bt st n : Nat) :
    (execLaunches op d_in ts tilesOf [⟨.singleInput, 1, bt, st, n⟩]).out
      = SingleTileKernelRun op d_in n := rfl

theorem foldl_exec_prepare {α : Type} (op : α → α → α) (d_in : Nat → α)
    (ts : Nat) (tilesOf : Nat → List Nat) (pre : List Launch)
    (hpre : ∀ l ∈ pre, l.kind = .prepareDrain) (m : DevMem α) :
    pre.foldl (execLaunch op d_in ts tilesOf) m = m := by
  induction pre generalizing m with
  | nil => rfl
  | cons l pre ih =>
    obtain ⟨k, g, bt, st, n⟩ := l
    have hk : k = .prepareDrain := hpre _ (List.mem_cons_self _ _)
    subst hk
    exact ih (fun l hl => hpre l (List.mem_cons_of_mem _ hl)) m

theorem execLaunches_two_stage {α : Type} (op : α → α → α) (d_in : Nat → α)
    (ts : Nat) (tilesOf : Nat → List Nat) (pre : List Launch)
    (hpre : ∀ l ∈ pre, l.kind = .prepareDrain) (g bt1 bt2 st n : Nat) :
    (execLaunches op d_in ts tilesOf
        (pre ++ [⟨.reduceTiles, g, bt1, st, n⟩, ⟨.aggregate, 1, bt2, st, g⟩])).out
      = (gatherPartials
          (fun b => if b < g then ReduceTilesKernelRun op d_in n ts tilesOf b else none)
          (List.range g)).bind (reduce1 op) := by
  unfold execLaunches
  rw [List.foldl_append, foldl_exec_prepare op d_in ts tilesOf pre hpre]
  rfl

/-! ## What a successful execution-mode Dispatch submitted -/

theorem twoStageLaunch_success_trace (env : DeviceEnv) (a : DispatchArgs)
    (cfgR cfgS : KernelDispatchConfig) (grid : Nat) (sizes : List Nat)
    (hok : (twoStageLaunch env a cfgR cfgS grid sizes).status = .success) :
    (twoStageLaunch env a cfgR cfgS grid sizes).launches
      = (if cfgR.grid_mapping = .DYNAMIC then
          [⟨.prepareDrain, 1, 1, a.stream, a.num_items⟩] else [])
        ++ [⟨.reduceTiles, grid, cfgR.block_threads, a.stream, a.num_items⟩,
            ⟨.aggregate, 1, cfgS.block_threads, a.stream, grid⟩]
      ∧ (twoStageLaunch env a cfgR cfgS grid sizes).allocSizes = some sizes := by
  by_cases hdbg : a.debug_synchronous = true
  · by_cases hdyn : cfgR.grid_mapping = GridMappingStrategy.DYNAMIC
    · by_cases hs0 : env.syncStream 0 = CudaError.success
      · by_cases hs1 : env.syncStream 1 = CudaError.success
        · by_cases hs2 : env.syncStream 2 = CudaError.success
          · simp [twoStageLaunch, hdbg, hdyn, hs0, hs1, hs2]
          · simp [twoStageLaunch, hdbg, hdyn, hs0, hs1, hs2] at hok
        · simp [twoStageLaunch, hdbg, hdyn, hs0, hs1] at hok
      · simp [twoStageLaunch, hdbg, hdyn, hs0] at hok
    · by_cases hs0 : env.syncStream 0 = CudaError.success
      · by_cases hs1 : env.syncStream 1 = CudaError.success
        · simp [twoStageLaunch, hdbg, hdyn, hs0, hs1]
        · simp [twoStageLaunch, hdbg, hdyn, hs0, hs1] at hok
      · simp [twoStageLaunch, hdbg, hdyn, hs0] at hok
  · simp [twoStageLaunch, hdbg]

theorem dispatch_success_cases (env : DeviceEnv) (a : DispatchArgs)
    (cfgR cfgS : KernelDispatchConfig)
    (hnull : a.temp_storage_null = false)
    (hok : (Dispatch env a cfgR cfgS).status = .success) :
    ((Dispatch env a cfgR cfgS).launches
        = [⟨.singleInput, 1, cfgS.block_threads, 0, a.num_items⟩])
    ∨ (∃ g : Nat,
        (Dispatch env a cfgR cfgS).launches
          = (if cfgR.grid_mapping = .DYNAMIC then
              [⟨.prepareDrain, 1, 1, a.stream, a.num_items⟩] else [])
            ++ [⟨.reduceTiles, g, cfgR.block_threads, a.stream, a.num_items⟩,
                ⟨.aggregate, 1, cfgS.block_threads, a.stream, g⟩]
        ∧ (Dispatch env a cfgR cfgS).allocSizes
            = some (allocationSizes g a.elem_size)
        ∧ a.reduce_tiles_kernel_null = false
        ∧ cfgR.block_threads * cfgR.items_per_thread < a.num_items) := by
  by_cases hpath : a.reduce_tiles_kernel_null = true
      ∨ a.num_items ≤ cfgR.block_threads * cfgR.items_per_thread
  · left
    by_cases hdbg : a.debug_synchronous = true
    · by_cases hsync : env.syncStream 0 = CudaError.success
      · simp [Dispatch, hpath, singleStagePart, hnull, hdbg, hsync]
      · simp [Dispatch, hpath, singleStagePart, hnull, hdbg, hsync]
    · simp [Dispatch, hpath, singleStagePart, hnull, hdbg]
  · right
    rw [Dispatch.eq_def, if_neg hpath] at hok ⊢
    push_neg at hpath
    rw [twoStagePart.eq_def] at hok ⊢
    by_cases h1 : (env.getDevice).1 = CudaError.success
    case neg =>
      rw [if_pos (by simpa using h1)] at hok
      exact absurd hok h1
    rw [if_neg (by simpa using h1)] at hok ⊢
    by_cases h2 : (env.smCount (env.getDevice).2).1 = CudaError.success
    case neg =>
      rw [if_pos (by simpa using h2)] at hok
      exact absurd hok h2
    rw [if_neg (by simpa using h2)] at hok ⊢
    by_cases h3 : (env.maxSmOccupancy cfgR.block_threads).1 = CudaError.success
    case neg =>
      rw [if_pos (by simpa using h3)] at hok
      exact absurd hok h3
    rw [if_neg (by simpa using h3)] at hok ⊢
    refine ⟨reduceTilesGridSize a.num_items cfgR.grid_mapping
      (cfgR.block_threads * cfgR.items_per_thread)
      (env.maxSmOccupancy cfgR.block_threads).2 (env.smCount (env.getDevice).2).2, ?_⟩
    by_cases h4 : (AliasTemporaries a.temp_storage_null a.temp_storage_bytes
        (allocationSizes
          (reduceTilesGridSize a.num_items cfgR.grid_mapping
            (cfgR.block_threads * cfgR.items_per_thread)
            (env.maxSmOccupancy cfgR.block_threads).2
            (env.smCount (env.getDevice).2).2)
          a.elem_size)).1 = CudaError.success
    case neg =>
      rw [if_pos (by simpa using h4)] at hok
      exact absurd hok h4
    rw [if_neg (by simpa using h4)] at hok ⊢
    rw [if_neg (by simp [hnull])] at hok ⊢
    obtain ⟨hl, hs⟩ := twoStageLaunch_success_trace env a cfgR cfgS _ _ hok
    exact ⟨hl, hs, by simpa using hpath.1, by have := hpath.2; omega⟩

/-! ## Further structural helpers -/

theorem dynamicGridSize_eq_min (nt occ : Nat) : dynamicGridSize nt occ = min nt occ := by
  unfold dynamicGridSize
  split <;> omega

theorem numTiles_pos (n ts : Nat) (hn : 1 ≤ n) (hts : 0 < ts) : 1 ≤ numTiles n ts := by
  have h := numTiles_mul_ge n ts hts
  rcases Nat.eq_zero_or_pos (numTiles n ts) with h0 | h1
  · rw [h0] at h; simp at h; omega
  · exact h1

theorem schedule_grid_pos {tilesOf : Nat → List Nat} {g nt : Nat}
    (h : IsPartitionSchedule tilesOf g nt) (hnt : 1 ≤ nt) : 1 ≤ g := by
  rcases Nat.eq_zero_or_pos g with h0 | h1
  · subst h0
    have hperm := h.1
    simp only [List.range_zero, List.map_nil, List.flatten_nil] at hperm
    have := hperm.symm.eq_nil
    rw [List.range_eq_nil] at this
    omega
  · exact h1

theorem scratchTotal_alloc_pos (g e : Nat) : 0 < scratchTotal (allocationSizes g e) := by
  have h : alignUp gridQueueAllocationSize = 256 := by decide
  simp only [scratchTotal, allocationSizes, List.map_cons, List.map_nil, List.sum_cons,
    List.sum_nil, h]
  omega

theorem execLaunches_two_stage_partials {α : Type} (op : α → α → α) (d_in : Nat → α)
    (ts : Nat) (tilesOf : Nat → List Nat) (pre : List Launch)
    (hpre : ∀ l ∈ pre, l.kind = .prepareDrain) (g bt1 bt2 st n b : Nat) :
    (execLaunches op d_in ts tilesOf
        (pre ++ [⟨.reduceTiles, g, bt1, st, n⟩, ⟨.aggregate, 1, bt2, st, g⟩])).partials b
      = if b < g then ReduceTilesKernelRun op d_in n ts tilesOf b else none := by
  unfold execLaunches
  rw [List.foldl_append, foldl_exec_prepare op d_in ts tilesOf pre hpre]
  rfl

/-- A fully-successful execution-mode call on the two-kernel path produces
exactly the trace of device_reduce.cuh lines 592-633, with the grid size the
planner computed and matching allocation extents. -/
theorem dispatch_two_stage_trace (env : DeviceEnv) (a : DispatchArgs)
    (cfgR cfgS : KernelDispatchConfig)
    (hnull : a.temp_storage_null = false)
    (hkern : a.reduce_tiles_kernel_null = false)
    (hbig : cfgR.block_threads * cfgR.items_per_thread < a.num_items)
    (h1 : (env.getDevice).1 = .success)
    (h2 : (env.smCount (env.getDevice).2).1 = .success)
    (h3 : (env.maxSmOccupancy cfgR.block_threads).1 = .success)
    (hbytes : scratchTotal (allocationSizes (dispatchGrid env a cfgR) a.elem_size)
      ≤ a.temp_storage_bytes)
    (hsync : ∀ k, env.syncStream k = .success) :
    Dispatch env a cfgR cfgS =
      { status := .success, tempBytesOut := none,
        launches :=
          (if cfgR.grid_mapping = .DYNAMIC then
            [⟨.prepareDrain, 1, 1, a.stream, a.num_items⟩] else [])
          ++ [⟨.reduceTiles, dispatchGrid env a cfgR, cfgR.block_threads,
                a.stream, a.num_items⟩,
              ⟨.aggregate, 1, cfgS.block_threads, a.stream, dispatchGrid env a cfgR⟩],
        allocSizes := some (allocationSizes (dispatchGrid env a cfgR) a.elem_size) } := by
  have hpath : ¬(a.reduce_tiles_kernel_null = true
      ∨ a.num_items ≤ cfgR.block_threads * cfgR.items_per_thread) := by
    simp only [hkern, Bool.false_eq_true, false_or]
    omega
  have halias : (AliasTemporaries a.temp_storage_null a.temp_storage_bytes
      (allocationSizes (dispatchGrid env a cfgR) a.elem_size)).1 = CudaError.success := by
    simp [AliasTemporaries, hnull, Nat.not_lt.mpr hbytes]
  simp only [dispatchGrid] at halias
  rw [Dispatch.eq_def, if_neg hpath, twoStagePart.eq_def,
    if_neg (by simpa using h1), if_neg (by simpa using h2), if_neg (by simpa using h3),
    if_neg (by simpa using halias), if_neg (by simp [hnull])]
  by_cases hdbg : a.debug_synchronous = true
  · by_cases hdyn : cfgR.grid_mapping = GridMappingStrategy.DYNAMIC
    · simp [twoStageLaunch, hdbg, hdyn, hsync 0, hsync 1, hsync 2, dispatchGrid]
    · simp [twoStageLaunch, hdbg, hdyn, hsync 0, hsync 1, dispatchGrid]
  · simp [twoStageLaunch, hdbg, dispatchGrid]

/-! ## The claims -/

/-- C1: for every input with `num_items ≥ 1` and every associative and
commutative reduction operator, a successful execution-mode Dispatch call
leaves at the output location the operator's fold over all `num_items` input
elements — on the single-stage path and on the two-stage path, under either
tile-mapping strategy (for any tile-to-block schedule that partitions the
tiles, which even-share and the drain queue both guarantee), assuming the
intra-group reduction capability correctly folds each range it is handed. -/
theorem C1_dispatch_computes_fold {α : Type} (op : α → α → α)
    (ha : ∀ x y z, op (op x y) z = op x (op y z))
    (hc : ∀ x y, op x y = op y x)
    (env : DeviceEnv) (a : DispatchArgs) (cfgR cfgS : KernelDispatchConfig)
    (d_in : Nat → α) (tilesOf : Nat → List Nat)
    (hn : 1 ≤ a.num_items)
    (hts : 0 < cfgR.block_threads * cfgR.items_per_thread)
    (hnull : a.temp_storage_null = false)
    (hok : (Dispatch env a cfgR cfgS).status = .success)
    (hsched : ∀ l ∈ (Dispatch env a cfgR cfgS).launches,
      l.kind = LaunchKind.reduceTiles →
      IsPartitionSchedule tilesOf l.grid_size
        (numTiles a.num_items (cfgR.block_threads * cfgR.items_per_thread))) :
    (execLaunches op d_in (cfgR.block_threads * cfgR.items_per_thread) tilesOf
        (Dispatch env a cfgR cfgS).launches).out
      = reduce1 op ((List.range a.num_items).map d_in) := by
  rcases dispatch_success_cases env a cfgR cfgS hnull hok with h | ⟨g, hl, _, _, _⟩
  · rw [h, execLaunches_single, singleTile_out]
  · have hpre : ∀ l ∈ (if cfgR.grid_mapping = GridMappingStrategy.DYNAMIC then
        [(⟨.prepareDrain, 1, 1, a.stream, a.num_items⟩ : Launch)] else []),
        l.kind = LaunchKind.prepareDrain := by
      intro l hlmem
      by_cases hdyn : cfgR.grid_mapping = GridMappingStrategy.DYNAMIC
      · rw [if_pos hdyn] at hlmem
        simp only [List.mem_singleton] at hlmem
        rw [hlmem]
      · rw [if_neg hdyn] at hlmem
        simp at hlmem
    rw [hl] at hsched ⊢
    rw [execLaunches_two_stage op d_in _ tilesOf _ hpre g _ _ _ _]
    apply partials_fold op ha hc d_in a.num_items _ g hts tilesOf
    apply hsched ⟨.reduceTiles, g, cfgR.block_threads, a.stream, a.num_items⟩
    · exact List.mem_append_right _ (List.mem_cons_self _ _)
    · rfl

/-- Witness for C1: the spec's Scenario A — input `[1,2,3,4,5]` under sum,
single-stage path, output `15`. -/
theorem C1_dispatch_computes_fold_witness :
    (execLaunches Nat.add exampleInput
        (Policy350.ReduceTilesPolicy4B.block_threads *
          Policy350.ReduceTilesPolicy4B.items_per_thread)
        (fun _ => [])
        (Dispatch envOK baseArgs Policy350.ReduceTilesPolicy4B
          Policy350.SingleTilePolicy).launches).out
      = some 15 := by
  have h := C1_dispatch_computes_fold Nat.add
    (fun x y z => Nat.add_assoc x y z) (fun x y => Nat.add_comm x y)
    envOK baseArgs Policy350.ReduceTilesPolicy4B Policy350.SingleTilePolicy
    exampleInput (fun _ => [])
    (by decide) (by decide) (by decide) (by decide)
    (by
      intro l hl hk
      rw [show (Dispatch envOK baseArgs Policy350.ReduceTilesPolicy4B
        Policy350.SingleTilePolicy).launches
          = [⟨.singleInput, 1, 256, 0, 5⟩] from by decide] at hl
      simp only [List.mem_singleton] at hl
      rw [hl] at hk
      exact absurd hk (by decide))
  exact h.trans (by decide)

/-- C2 (code evaluated at the failing input): the single-stage launch at
device_reduce.cuh line 508 omits the stream from its launch configuration, so
a single-stage call on stream 7 submits the single-tile kernel on the default
stream 0 — although the two-stage path's submissions (lines 599, 610, 626) do
carry the caller's stream. -/
theorem C2_single_stage_default_stream :
    (Dispatch envOK argsStreamSeven Policy350.ReduceTilesPolicy4B
        Policy350.SingleTilePolicy).launches
      = [⟨.singleInput, 1, 256, 0, 5⟩]
    ∧ argsStreamSeven.stream = 7
    ∧ ((Dispatch envTwoOcc argsThreeStreamSeven smallDynConfig
        smallSingleConfig).launches.map Launch.stream) = [7, 7, 7] := by
  decide

/-- C3 counterexample: under DYNAMIC mapping with `num_tiles = 3`, device
occupancy 2 and oversubscription target `2 × 2 = 4`, the partial-reduction
kernel is launched with grid size `2 = min(num_tiles, occupancy)`, not
`min(num_tiles, occupancy × oversubscription_factor) = min 3 4 = 3` as the
claim states. -/
theorem C3_counterexample :
    ((Dispatch envTwoOcc argsThree smallDynConfig smallSingleConfig).launches
      = [⟨.prepareDrain, 1, 1, 0, 3⟩, ⟨.reduceTiles, 2, 1, 0, 3⟩,
         ⟨.aggregate, 1, 4, 0, 2⟩])
    ∧ numTiles argsThree.num_items
        (smallDynConfig.block_threads * smallDynConfig.items_per_thread) = 3
    ∧ (envTwoOcc.maxSmOccupancy smallDynConfig.block_threads).2
        * (envTwoOcc.smCount (envTwoOcc.getDevice).2).2
        * (envTwoOcc.maxSmOccupancy smallDynConfig.block_threads).2 = 4
    ∧ (2 : Nat) ≠ min 3 4 := by
  decide

/-- C3 amended: on the two-stage path with DYNAMIC mapping, the
partial-reduction kernel's grid size is `min(num_tiles, occupancy)` with
`occupancy = sm_occupancy × sm_count` alone — the oversubscription factor
enters only the even-share plan, not the dynamic grid size. -/
theorem C3_dynamic_grid_min_occupancy (env : DeviceEnv) (a : DispatchArgs)
    (cfgR cfgS : KernelDispatchConfig)
    (hdyn : cfgR.grid_mapping = GridMappingStrategy.DYNAMIC)
    (hnull : a.temp_storage_null = false)
    (hkern : a.reduce_tiles_kernel_null = false)
    (hbig : cfgR.block_threads * cfgR.items_per_thread < a.num_items)
    (h1 : (env.getDevice).1 = .success)
    (h2 : (env.smCount (env.getDevice).2).1 = .success)
    (h3 : (env.maxSmOccupancy cfgR.block_threads).1 = .success)
    (hbytes : scratchTotal (allocationSizes (dispatchGrid env a cfgR) a.elem_size)
      ≤ a.temp_storage_bytes)
    (hsync : ∀ k, env.syncStream k = .success) :
    (⟨.reduceTiles,
        min (numTiles a.num_items (cfgR.block_threads * cfgR.items_per_thread))
          ((env.maxSmOccupancy cfgR.block_threads).2
            * (env.smCount (env.getDevice).2).2),
        cfgR.block_threads, a.stream, a.num_items⟩ : Launch)
      ∈ (Dispatch env a cfgR cfgS).launches := by
  rw [dispatch_two_stage_trace env a cfgR cfgS hnull hkern hbig h1 h2 h3 hbytes hsync]
  have hg : dispatchGrid env a cfgR
      = min (numTiles a.num_items (cfgR.block_threads * cfgR.items_per_thread))
          ((env.maxSmOccupancy cfgR.block_threads).2
            * (env.smCount (env.getDevice).2).2) := by
    simp [dispatchGrid, reduceTilesGridSize, hdyn, dynamicGridSize_eq_min]
  rw [← hg]
  exact List.mem_append_right _ (List.mem_cons_self _ _)

/-- Witness for the amended C3: `num_tiles = 3`, occupancy `2`, grid
`min 3 2 = 2`. -/
theorem C3_dynamic_grid_min_occupancy_witness :
    (⟨.reduceTiles,
        min (numTiles argsThree.num_items
          (smallDynConfig.block_threads * smallDynConfig.items_per_thread))
          ((envTwoOcc.maxSmOccupancy smallDynConfig.block_threads).2
            * (envTwoOcc.smCount (envTwoOcc.getDevice).2).2),
        smallDynConfig.block_threads, argsThree.stream,
        argsThree.num_items⟩ : Launch)
      ∈ (Dispatch envTwoOcc argsThree smallDynConfig smallSingleConfig).launches :=
  C3_dynamic_grid_min_occupancy envTwoOcc argsThree smallDynConfig smallSingleConfig
    (by decide) (by decide) (by decide) (by decide) (by decide) (by decide)
    (by decide) (by decide) (fun _ => rfl)

/-- C4: with `tile_size = block_threads × items_per_thread` of the
partial-reduction configuration, Dispatch takes the single-stage path —
launching the combine kernel over the raw input with exactly one worker
group — precisely when the partial-reduction kernel is unavailable or
`num_items ≤ tile_size`, and the two-stage path (a reduce-tiles launch)
when the kernel is available and `num_items > tile_size`; both sides return
success under a working environment. -/
theorem C4_path_selection (env : DeviceEnv) (a : DispatchArgs)
    (cfgR cfgS : KernelDispatchConfig)
    (hnull : a.temp_storage_null = false)
    (h1 : (env.getDevice).1 = .success)
    (h2 : (env.smCount (env.getDevice).2).1 = .success)
    (h3 : (env.maxSmOccupancy cfgR.block_threads).1 = .success)
    (hbytes : scratchTotal (allocationSizes (dispatchGrid env a cfgR) a.elem_size)
      ≤ a.temp_storage_bytes)
    (hsync : ∀ k, env.syncStream k = .success) :
    ((a.reduce_tiles_kernel_null = true
        ∨ a.num_items ≤ cfgR.block_threads * cfgR.items_per_thread) →
      (Dispatch env a cfgR cfgS).launches
          = [⟨.singleInput, 1, cfgS.block_threads, 0, a.num_items⟩]
        ∧ (Dispatch env a cfgR cfgS).status = .success)
    ∧ (a.reduce_tiles_kernel_null = false →
       cfgR.block_threads * cfgR.items_per_thread < a.num_items →
      ((⟨.reduceTiles, dispatchGrid env a cfgR, cfgR.block_threads, a.stream,
          a.num_items⟩ : Launch) ∈ (Dispatch env a cfgR cfgS).launches)
        ∧ (Dispatch env a cfgR cfgS).status = .success) := by
  constructor
  · intro hpath
    by_cases hdbg : a.debug_synchronous = true
    · simp [Dispatch, hpath, singleStagePart, hnull, hdbg, hsync 0]
    · simp [Dispatch, hpath, singleStagePart, hnull, hdbg]
  · intro hkern hbig
    rw [dispatch_two_stage_trace env a cfgR cfgS hnull hkern hbig h1 h2 h3 hbytes hsync]
    exact ⟨List.mem_append_right _ (List.mem_cons_self _ _), rfl⟩

/-- Witness for C4: the tile boundary of `Policy300` (`tile_size = 512`) —
512 items take the single-stage path with one group, 513 items take the
two-stage path; both succeed. -/
theorem C4_path_selection_witness :
    ((Dispatch envOK argsBoundary Policy300.ReduceTilesPolicy
          Policy300.SingleTilePolicy).launches
        = [⟨.singleInput, 1, 256, 0, 512⟩]
      ∧ (Dispatch envOK argsBoundary Policy300.ReduceTilesPolicy
          Policy300.SingleTilePolicy).status = .success)
    ∧ (((⟨.reduceTiles,
          dispatchGrid envOK argsBoundaryPlus Policy300.ReduceTilesPolicy,
          256, 0, 513⟩ : Launch)
        ∈ (Dispatch envOK argsBoundaryPlus Policy300.ReduceTilesPolicy
            Policy300.SingleTilePolicy).launches)
      ∧ (Dispatch envOK argsBoundaryPlus Policy300.ReduceTilesPolicy
          Policy300.SingleTilePolicy).status = .success) := by
  constructor
  · exact (C4_path_selection envOK argsBoundary Policy300.ReduceTilesPolicy
      Policy300.SingleTilePolicy (by decide) (by decide) (by decide) (by decide)
      (by decide) (fun _ => rfl)).1 (by decide)
  · exact (C4_path_selection envOK argsBoundaryPlus Policy300.ReduceTilesPolicy
      Policy300.SingleTilePolicy (by decide) (by decide) (by decide) (by decide)
      (by decide) (fun _ => rfl)).2 (by decide) (by decide)

/-- Sizing-mode result of the two-kernel branch (device_reduce.cuh lines
570-584): the planned total is written and the call returns before any
launch. -/
theorem dispatch_two_stage_sizing (env : DeviceEnv) (a : DispatchArgs)
    (cfgR cfgS : KernelDispatchConfig)
    (hnull : a.temp_storage_null = true)
    (hkern : a.reduce_tiles_kernel_null = false)
    (hbig : cfgR.block_threads * cfgR.items_per_thread < a.num_items)
    (h1 : (env.getDevice).1 = .success)
    (h2 : (env.smCount (env.getDevice).2).1 = .success)
    (h3 : (env.maxSmOccupancy cfgR.block_threads).1 = .success) :
    Dispatch env a cfgR cfgS
      = ⟨.success,
         some (scratchTotal (allocationSizes (dispatchGrid env a cfgR) a.elem_size)),
         [], some (allocationSizes (dispatchGrid env a cfgR) a.elem_size)⟩ := by
  have hpath : ¬(a.reduce_tiles_kernel_null = true
      ∨ a.num_items ≤ cfgR.block_threads * cfgR.items_per_thread) := by
    simp only [hkern, Bool.false_eq_true, false_or]
    omega
  have halias : (AliasTemporaries a.temp_storage_null a.temp_storage_bytes
      (allocationSizes (dispatchGrid env a cfgR) a.elem_size)).1
      = CudaError.success := by
    simp [AliasTemporaries, hnull]
  simp only [dispatchGrid] at halias
  rw [Dispatch.eq_def, if_neg hpath, twoStagePart.eq_def,
    if_neg (by simpa using h1), if_neg (by simpa using h2), if_neg (by simpa using h3),
    if_neg (by simpa using halias), if_pos hnull]
  simp [AliasTemporaries, hnull, dispatchGrid]

/-- Undersized-buffer result of the two-kernel branch (device_reduce.cuh line
579): the aliasing step's failure is returned and nothing is launched. -/
theorem dispatch_two_stage_undersized (env : DeviceEnv) (a : DispatchArgs)
    (cfgR cfgS : KernelDispatchConfig)
    (hnull : a.temp_storage_null = false)
    (hkern : a.reduce_tiles_kernel_null = false)
    (hbig : cfgR.block_threads * cfgR.items_per_thread < a.num_items)
    (h1 : (env.getDevice).1 = .success)
    (h2 : (env.smCount (env.getDevice).2).1 = .success)
    (h3 : (env.maxSmOccupancy cfgR.block_threads).1 = .success)
    (hsmall : a.temp_storage_bytes
      < scratchTotal (allocationSizes (dispatchGrid env a cfgR) a.elem_size)) :
    Dispatch env a cfgR cfgS
      = ⟨.invalidScratchSize, none, [],
         some (allocationSizes (dispatchGrid env a cfgR) a.elem_size)⟩ := by
  have hpath : ¬(a.reduce_tiles_kernel_null = true
      ∨ a.num_items ≤ cfgR.block_threads * cfgR.items_per_thread) := by
    simp only [hkern, Bool.false_eq_true, false_or]
    omega
  have halias : (AliasTemporaries a.temp_storage_null a.temp_storage_bytes
      (allocationSizes (dispatchGrid env a cfgR) a.elem_size)).1
      = CudaError.invalidScratchSize := by
    simp [AliasTemporaries, hnull, hsmall]
  simp only [dispatchGrid] at halias
  have hsmall' := hsmall
  simp only [dispatchGrid] at hsmall'
  rw [Dispatch.eq_def, if_neg hpath, twoStagePart.eq_def,
    if_neg (by simpa using h1), if_neg (by simpa using h2), if_neg (by simpa using h3),
    if_pos (by simp [halias])]
  simp [AliasTemporaries, hnull, hsmall', dispatchGrid]

/-- C5: for every call with a null scratch pointer, Dispatch writes a required
byte size strictly greater than zero into the in-out size parameter, returns
success, submits no kernels, and the output location stays unwritten — on
both the single-stage and the two-stage sizing branches. -/
theorem C5_sizing_query (env : DeviceEnv) (a : DispatchArgs)
    (cfgR cfgS : KernelDispatchConfig)
    (hnull : a.temp_storage_null = true)
    (h1 : (env.getDevice).1 = .success)
    (h2 : (env.smCount (env.getDevice).2).1 = .success)
    (h3 : (env.maxSmOccupancy cfgR.block_threads).1 = .success) :
    (Dispatch env a cfgR cfgS).status = .success
    ∧ (∃ b : Nat, (Dispatch env a cfgR cfgS).tempBytesOut = some b ∧ 0 < b)
    ∧ (Dispatch env a cfgR cfgS).launches = []
    ∧ (∀ {α : Type} (op : α → α → α) (d_in : Nat → α) (ts : Nat)
        (tilesOf : Nat → List Nat),
        (execLaunches op d_in ts tilesOf (Dispatch env a cfgR cfgS).launches).out
          = none) := by
  by_cases hpath : a.reduce_tiles_kernel_null = true
      ∨ a.num_items ≤ cfgR.block_threads * cfgR.items_per_thread
  · have hres : Dispatch env a cfgR cfgS = ⟨.success, some 1, [], none⟩ := by
      simp [Dispatch, hpath, singleStagePart, hnull]
    rw [hres]
    exact ⟨rfl, ⟨1, rfl, by omega⟩, rfl, fun op d_in ts tilesOf => rfl⟩
  · push_neg at hpath
    have hres := dispatch_two_stage_sizing env a cfgR cfgS hnull
      (by simpa using hpath.1) (by omega) h1 h2 h3
    rw [hres]
    exact ⟨rfl, ⟨_, rfl, scratchTotal_alloc_pos _ _⟩, rfl, fun op d_in ts tilesOf => rfl⟩

/-- Witness for C5: the spec's Scenario C — sizing query for 10,000,000 items
returns success with a positive size and no submissions. -/
theorem C5_sizing_query_witness :
    (Dispatch envOK argsSizingBig Policy350.ReduceTilesPolicy4B
        Policy350.SingleTilePolicy).status = .success
    ∧ (∃ b : Nat, (Dispatch envOK argsSizingBig Policy350.ReduceTilesPolicy4B
        Policy350.SingleTilePolicy).tempBytesOut = some b ∧ 0 < b)
    ∧ (Dispatch envOK argsSizingBig Policy350.ReduceTilesPolicy4B
        Policy350.SingleTilePolicy).launches = []
    ∧ (∀ {α : Type} (op : α → α → α) (d_in : Nat → α) (ts : Nat)
        (tilesOf : Nat → List Nat),
        (execLaunches op d_in ts tilesOf
          (Dispatch envOK argsSizingBig Policy350.ReduceTilesPolicy4B
            Policy350.SingleTilePolicy).launches).out = none) :=
  C5_sizing_query envOK argsSizingBig Policy350.ReduceTilesPolicy4B
    Policy350.SingleTilePolicy (by decide) (by decide) (by decide) (by decide)

/-- C6 counterexample: on the single-stage path the sizing query reports 1
byte, yet a repeat call with a non-null buffer of 0 bytes (one byte smaller)
is not rejected — it returns success and submits the single-tile kernel.
The scratch size is checked only on the two-stage path. -/
theorem C6_counterexample :
    (Dispatch envOK argsSizingFive Policy350.ReduceTilesPolicy4B
        Policy350.SingleTilePolicy).tempBytesOut = some 1
    ∧ (Dispatch envOK argsZeroBytes Policy350.ReduceTilesPolicy4B
        Policy350.SingleTilePolicy).status = CudaError.success
    ∧ (Dispatch envOK argsZeroBytes Policy350.ReduceTilesPolicy4B
        Policy350.SingleTilePolicy).status ≠ CudaError.invalidScratchSize
    ∧ (Dispatch envOK argsZeroBytes Policy350.ReduceTilesPolicy4B
        Policy350.SingleTilePolicy).launches ≠ [] := by
  decide

/-- C6 amended: on the two-stage path (partial-reduction kernel available and
`num_items > tile_size`), a non-null buffer one byte smaller than the size the
sizing query returns for the same arguments makes Dispatch return the
invalid-scratch-size status with no submissions; on the single-stage path the
buffer size is not checked at all. -/
theorem C6_undersized_rejected (env : DeviceEnv) (a : DispatchArgs)
    (cfgR cfgS : KernelDispatchConfig)
    (hnull : a.temp_storage_null = false)
    (hkern : a.reduce_tiles_kernel_null = false)
    (hbig : cfgR.block_threads * cfgR.items_per_thread < a.num_items)
    (h1 : (env.getDevice).1 = .success)
    (h2 : (env.smCount (env.getDevice).2).1 = .success)
    (h3 : (env.maxSmOccupancy cfgR.block_threads).1 = .success)
    (hq : a.temp_storage_bytes + 1
      = scratchTotal (allocationSizes (dispatchGrid env a cfgR) a.elem_size)) :
    (Dispatch env { a with temp_storage_null := true } cfgR cfgS).tempBytesOut
      = some (a.temp_storage_bytes + 1)
    ∧ (Dispatch env a cfgR cfgS).status = CudaError.invalidScratchSize
    ∧ (Dispatch env a cfgR cfgS).launches = [] := by
  have hres := dispatch_two_stage_undersized env a cfgR cfgS hnull hkern hbig
    h1 h2 h3 (by omega)
  have hsz := dispatch_two_stage_sizing env { a with temp_storage_null := true }
    cfgR cfgS rfl hkern hbig h1 h2 h3
  refine ⟨?_, by rw [hres], by rw [hres]⟩
  rw [hsz, hq]
  rfl

/-- Witness for the amended C6: 513 items under `Policy300` need 512 scratch
bytes; a 511-byte buffer is rejected with `invalidScratchSize` and nothing is
submitted, while the sizing query reports 512. -/
theorem C6_undersized_rejected_witness :
    (Dispatch envOK { argsBoundaryPlusSmall with temp_storage_null := true }
        Policy300.ReduceTilesPolicy Policy300.SingleTilePolicy).tempBytesOut
      = some (argsBoundaryPlusSmall.temp_storage_bytes + 1)
    ∧ (Dispatch envOK argsBoundaryPlusSmall Policy300.ReduceTilesPolicy
        Policy300.SingleTilePolicy).status = CudaError.invalidScratchSize
    ∧ (Dispatch envOK argsBoundaryPlusSmall Policy300.ReduceTilesPolicy
        Policy300.SingleTilePolicy).launches = [] :=
  C6_undersized_rejected envOK argsBoundaryPlusSmall Policy300.ReduceTilesPolicy
    Policy300.SingleTilePolicy (by decide) (by decide) (by decide) (by decide)
    (by decide) (by decide) (by decide)

/-- C7: on the two-stage path Dispatch submits, in order: the drain-queue
reset (first, and only when the mapping strategy is DYNAMIC — never under
EVEN_SHARE), then the partial-reduction kernel, then the combine kernel over
the partials array; all on one stream, so the reset is ordered before any
tile claim and the combine after the entire partial-reduction stage. -/
theorem C7_two_stage_order (env : DeviceEnv) (a : DispatchArgs)
    (cfgR cfgS : KernelDispatchConfig)
    (hnull : a.temp_storage_null = false)
    (hkern : a.reduce_tiles_kernel_null = false)
    (hbig : cfgR.block_threads * cfgR.items_per_thread < a.num_items)
    (h1 : (env.getDevice).1 = .success)
    (h2 : (env.smCount (env.getDevice).2).1 = .success)
    (h3 : (env.maxSmOccupancy cfgR.block_threads).1 = .success)
    (hbytes : scratchTotal (allocationSizes (dispatchGrid env a cfgR) a.elem_size)
      ≤ a.temp_storage_bytes)
    (hsync : ∀ k, env.syncStream k = .success) :
    (Dispatch env a cfgR cfgS).launches
      = (if cfgR.grid_mapping = GridMappingStrategy.DYNAMIC then
          [⟨.prepareDrain, 1, 1, a.stream, a.num_items⟩] else [])
        ++ [⟨.reduceTiles, dispatchGrid env a cfgR, cfgR.block_threads,
              a.stream, a.num_items⟩,
            ⟨.aggregate, 1, cfgS.block_threads, a.stream, dispatchGrid env a cfgR⟩] := by
  rw [dispatch_two_stage_trace env a cfgR cfgS hnull hkern hbig h1 h2 h3 hbytes hsync]

/-- Witness for C7: the DYNAMIC two-stage trace at 3 items / tile size 1. -/
theorem C7_two_stage_order_witness :
    (Dispatch envTwoOcc argsThree smallDynConfig smallSingleConfig).launches
      = [⟨.prepareDrain, 1, 1, 0, 3⟩, ⟨.reduceTiles, 2, 1, 0, 3⟩,
         ⟨.aggregate, 1, 4, 0, 2⟩] :=
  (C7_two_stage_order envTwoOcc argsThree smallDynConfig smallSingleConfig
    (by decide) (by decide) (by decide) (by decide) (by decide) (by decide)
    (by decide) (fun _ => rfl)).trans (by decide)

/-- C8: tuning-configuration selection is a total lookup that never errors:
any PTX generation at or above 350 selects the 350 family, each known range
selects its own family, and any generation below 130 falls back to the
oldest supported family's policies (100). -/
theorem C8_policy_selection (v es : Nat) :
    (350 ≤ v → InitDispatchConfigs v es
        = (Policy350.ReduceTilesPolicy es, Policy350.SingleTilePolicy))
    ∧ (300 ≤ v → v < 350 → InitDispatchConfigs v es
        = (Policy300.ReduceTilesPolicy, Policy300.SingleTilePolicy))
    ∧ (200 ≤ v → v < 300 → InitDispatchConfigs v es
        = (Policy200.ReduceTilesPolicy es, Policy200.SingleTilePolicy))
    ∧ (130 ≤ v → v < 200 → InitDispatchConfigs v es
        = (Policy130.ReduceTilesPolicy, Policy130.SingleTilePolicy))
    ∧ (v < 130 → InitDispatchConfigs v es
        = (Policy100.ReduceTilesPolicy, Policy100.SingleTilePolicy)) := by
  unfold InitDispatchConfigs
  refine ⟨fun h => ?_, fun h h' => ?_, fun h h' => ?_, fun h h' => ?_, fun h => ?_⟩
  · rw [if_pos h]
  · rw [if_neg (by omega), if_pos h]
  · rw [if_neg (by omega), if_neg (by omega), if_pos h]
  · rw [if_neg (by omega), if_neg (by omega), if_neg (by omega), if_pos h]
  · rw [if_neg (by omega), if_neg (by omega), if_neg (by omega), if_neg (by omega)]

/-- Witness for C8: an unrecognized future generation (9999) uses the 350
family; a pre-130 generation (120) falls back to the 100 family. -/
theorem C8_policy_selection_witness :
    InitDispatchConfigs 9999 4
      = (Policy350.ReduceTilesPolicy 4, Policy350.SingleTilePolicy)
    ∧ InitDispatchConfigs 120 4
      = (Policy100.ReduceTilesPolicy, Policy100.SingleTilePolicy) :=
  ⟨(C8_policy_selection 9999 4).1 (by omega),
   (C8_policy_selection 120 4).2.2.2.2 (by omega)⟩

/-- After the queries succeed and the scratch buffer is bound, the execution
mode two-kernel branch is exactly the launch phase. -/
theorem dispatch_two_stage_launchphase (env : DeviceEnv) (a : DispatchArgs)
    (cfgR cfgS : KernelDispatchConfig)
    (hnull : a.temp_storage_null = false)
    (hkern : a.reduce_tiles_kernel_null = false)
    (hbig : cfgR.block_threads * cfgR.items_per_thread < a.num_items)
    (h1 : (env.getDevice).1 = .success)
    (h2 : (env.smCount (env.getDevice).2).1 = .success)
    (h3 : (env.maxSmOccupancy cfgR.block_threads).1 = .success)
    (hbytes : scratchTotal (allocationSizes (dispatchGrid env a cfgR) a.elem_size)
      ≤ a.temp_storage_bytes) :
    Dispatch env a cfgR cfgS
      = twoStageLaunch env a cfgR cfgS (dispatchGrid env a cfgR)
          (allocationSizes (dispatchGrid env a cfgR) a.elem_size) := by
  have hpath : ¬(a.reduce_tiles_kernel_null = true
      ∨ a.num_items ≤ cfgR.block_threads * cfgR.items_per_thread) := by
    simp only [hkern, Bool.false_eq_true, false_or]
    omega
  have halias : (AliasTemporaries a.temp_storage_null a.temp_storage_bytes
      (allocationSizes (dispatchGrid env a cfgR) a.elem_size)).1
      = CudaError.success := by
    simp [AliasTemporaries, hnull, Nat.not_lt.mpr hbytes]
  simp only [dispatchGrid] at halias
  rw [Dispatch.eq_def, if_neg hpath, twoStagePart.eq_def,
    if_neg (by simpa using h1), if_neg (by simpa using h2), if_neg (by simpa using h3),
    if_neg (by simpa using halias), if_neg (by simp [hnull])]
  simp [dispatchGrid]

/-- C9: the dispatcher performs no retries — the failure of any internal
primitive (device-ordinal query, SM-count query, occupancy computation,
scratch aliasing, or a post-launch stream synchronization in debug mode) is
returned immediately as the call's status, no subsequent kernel of the call
is submitted, and the traces cut short by such a failure contain no kernel
that writes the output location. -/
theorem C9_error_propagation (env : DeviceEnv) (a : DispatchArgs)
    (cfgR cfgS : KernelDispatchConfig) :
    (a.reduce_tiles_kernel_null = false →
     cfgR.block_threads * cfgR.items_per_thread < a.num_items →
      ((env.getDevice).1 ≠ .success →
        Dispatch env a cfgR cfgS = ⟨(env.getDevice).1, none, [], none⟩)
      ∧ ((env.getDevice).1 = .success →
         (env.smCount (env.getDevice).2).1 ≠ .success →
        Dispatch env a cfgR cfgS
          = ⟨(env.smCount (env.getDevice).2).1, none, [], none⟩)
      ∧ ((env.getDevice).1 = .success →
         (env.smCount (env.getDevice).2).1 = .success →
         (env.maxSmOccupancy cfgR.block_threads).1 ≠ .success →
        Dispatch env a cfgR cfgS
          = ⟨(env.maxSmOccupancy cfgR.block_threads).1, none, [], none⟩)
      ∧ ((env.getDevice).1 = .success →
         (env.smCount (env.getDevice).2).1 = .success →
         (env.maxSmOccupancy cfgR.block_threads).1 = .success →
         a.temp_storage_null = false →
         a.temp_storage_bytes
           < scratchTotal (allocationSizes (dispatchGrid env a cfgR) a.elem_size) →
        Dispatch env a cfgR cfgS
          = ⟨.invalidScratchSize, none, [],
             some (allocationSizes (dispatchGrid env a cfgR) a.elem_size)⟩)
      ∧ ((env.getDevice).1 = .success →
         (env.smCount (env.getDevice).2).1 = .success →
         (env.maxSmOccupancy cfgR.block_threads).1 = .success →
         a.temp_storage_null = false →
         scratchTotal (allocationSizes (dispatchGrid env a cfgR) a.elem_size)
           ≤ a.temp_storage_bytes →
         a.debug_synchronous = true →
         cfgR.grid_mapping = GridMappingStrategy.DYNAMIC →
         env.syncStream 0 ≠ .success →
        Dispatch env a cfgR cfgS
          = ⟨env.syncStream 0, none,
             [⟨.prepareDrain, 1, 1, a.stream, a.num_items⟩],
             some (allocationSizes (dispatchGrid env a cfgR) a.elem_size)⟩)
      ∧ ((env.getDevice).1 = .success →
         (env.smCount (env.getDevice).2).1 = .success →
         (env.maxSmOccupancy cfgR.block_threads).1 = .success →
         a.temp_storage_null = false →
         scratchTotal (allocationSizes (dispatchGrid env a cfgR) a.elem_size)
           ≤ a.temp_storage_bytes →
         a.debug_synchronous = true →
         cfgR.grid_mapping = GridMappingStrategy.DYNAMIC →
         env.syncStream 0 = .success →
         env.syncStream 1 ≠ .success →
        Dispatch env a cfgR cfgS
          = ⟨env.syncStream 1, none,
             [⟨.prepareDrain, 1, 1, a.stream, a.num_items⟩,
              ⟨.reduceTiles, dispatchGrid env a cfgR, cfgR.block_threads,
                a.stream, a.num_items⟩],
             some (allocationSizes (dispatchGrid env a cfgR) a.elem_size)⟩)
      ∧ ((env.getDevice).1 = .success →
         (env.smCount (env.getDevice).2).1 = .success →
         (env.maxSmOccupancy cfgR.block_threads).1 = .success →
         a.temp_storage_null = false →
         scratchTotal (allocationSizes (dispatchGrid env a cfgR) a.elem_size)
           ≤ a.temp_storage_bytes →
         a.debug_synchronous = true →
         cfgR.grid_mapping = GridMappingStrategy.EVEN_SHARE →
         env.syncStream 0 ≠ .success →
        Dispatch env a cfgR cfgS
          = ⟨env.syncStream 0, none,
             [⟨.reduceTiles, dispatchGrid env a cfgR, cfgR.block_threads,
                a.stream, a.num_items⟩],
             some (allocationSizes (dispatchGrid env a cfgR) a.elem_size)⟩))
    ∧ ((a.reduce_tiles_kernel_null = true
        ∨ a.num_items ≤ cfgR.block_threads * cfgR.items_per_thread) →
       a.temp_storage_null = false →
       a.debug_synchronous = true →
       env.syncStream 0 ≠ .success →
        Dispatch env a cfgR cfgS
          = ⟨env.syncStream 0, none,
             [⟨.singleInput, 1, cfgS.block_threads, 0, a.num_items⟩], none⟩)
    ∧ (∀ {α : Type} (op : α → α → α) (d_in : Nat → α) (ts0 : Nat)
        (tilesOf : Nat → List Nat) (g bt st n : Nat),
        (execLaunches op d_in ts0 tilesOf
          [⟨.prepareDrain, 1, 1, st, n⟩]).out = none
        ∧ (execLaunches op d_in ts0 tilesOf
          [⟨.prepareDrain, 1, 1, st, n⟩, ⟨.reduceTiles, g, bt, st, n⟩]).out
            = none) := by
  have hpath : a.reduce_tiles_kernel_null = false →
      cfgR.block_threads * cfgR.items_per_thread < a.num_items →
      ¬(a.reduce_tiles_kernel_null = true
        ∨ a.num_items ≤ cfgR.block_threads * cfgR.items_per_thread) := by
    intro hkern hbig
    simp only [hkern, Bool.false_eq_true, false_or]
    omega
  refine ⟨fun hkern hbig => ⟨?_, ?_, ?_, ?_, ?_, ?_, ?_⟩,
    fun hp hnull hdbg hfail => ?_,
    fun op d_in ts0 tilesOf g bt st n => ⟨rfl, rfl⟩⟩
  · intro hfail
    rw [Dispatch.eq_def, if_neg (hpath hkern hbig), twoStagePart.eq_def,
      if_pos (by simpa using hfail)]
  · intro h1 hfail
    rw [Dispatch.eq_def, if_neg (hpath hkern hbig), twoStagePart.eq_def,
      if_neg (by simpa using h1), if_pos (by simpa using hfail)]
  · intro h1 h2 hfail
    rw [Dispatch.eq_def, if_neg (hpath hkern hbig), twoStagePart.eq_def,
      if_neg (by simpa using h1), if_neg (by simpa using h2),
      if_pos (by simpa using hfail)]
  · intro h1 h2 h3 hnull hsmall
    exact dispatch_two_stage_undersized env a cfgR cfgS hnull hkern hbig
      h1 h2 h3 hsmall
  · intro h1 h2 h3 hnull hbytes hdbg hdyn hfail
    rw [dispatch_two_stage_launchphase env a cfgR cfgS hnull hkern hbig
      h1 h2 h3 hbytes]
    simp [twoStageLaunch, hdbg, hdyn, hfail]
  · intro h1 h2 h3 hnull hbytes hdbg hdyn hs0 hfail
    rw [dispatch_two_stage_launchphase env a cfgR cfgS hnull hkern hbig
      h1 h2 h3 hbytes]
    simp [twoStageLaunch, hdbg, hdyn, hs0, hfail]
  · intro h1 h2 h3 hnull hbytes hdbg hdyn hfail
    rw [dispatch_two_stage_launchphase env a cfgR cfgS hnull hkern hbig
      h1 h2 h3 hbytes]
    simp [twoStageLaunch, hdbg, hdyn, hfail]
  · simp [Dispatch, hp, singleStagePart, hnull, hdbg, hfail]

/-- Witness for C9: a failing device-ordinal query (error code 7) on the
two-stage path aborts the call with that status, no submissions, nothing
written. -/
theorem C9_error_propagation_witness :
    Dispatch envNoDevice argsThree smallDynConfig smallSingleConfig
      = ⟨.other 7, none, [], none⟩ :=
  ((C9_error_propagation envNoDevice argsThree smallDynConfig
    smallSingleConfig).1 (by decide) (by decide)).1 (by decide)

/-- C10: on a successful two-stage call the three uses of the partials array
agree exactly — the scratch sub-region holds `grid` elements
(`grid * elem_size` bytes), the partial-reduction kernel is launched with
exactly `grid` blocks, after it retires the partials array holds exactly one
aggregate per block index below `grid` (and nothing elsewhere), and the
combine kernel is invoked over exactly `grid` items — so every partial it
reads was written by exactly one block, no access is out of bounds, and the
final output is defined. -/
theorem C10_partials_agree {α : Type} (op : α → α → α)
    (env : DeviceEnv) (a : DispatchArgs) (cfgR cfgS : KernelDispatchConfig)
    (d_in : Nat → α) (tilesOf : Nat → List Nat)
    (hn : 1 ≤ a.num_items)
    (hts : 0 < cfgR.block_threads * cfgR.items_per_thread)
    (hnull : a.temp_storage_null = false)
    (hkern : a.reduce_tiles_kernel_null = false)
    (hbig : cfgR.block_threads * cfgR.items_per_thread < a.num_items)
    (h1 : (env.getDevice).1 = .success)
    (h2 : (env.smCount (env.getDevice).2).1 = .success)
    (h3 : (env.maxSmOccupancy cfgR.block_threads).1 = .success)
    (hbytes : scratchTotal (allocationSizes (dispatchGrid env a cfgR) a.elem_size)
      ≤ a.temp_storage_bytes)
    (hsync : ∀ k, env.syncStream k = .success)
    (hsched : IsPartitionSchedule tilesOf (dispatchGrid env a cfgR)
      (numTiles a.num_items (cfgR.block_threads * cfgR.items_per_thread))) :
    (Dispatch env a cfgR cfgS).allocSizes
      = some [dispatchGrid env a cfgR * a.elem_size, gridQueueAllocationSize]
    ∧ ((⟨.reduceTiles, dispatchGrid env a cfgR, cfgR.block_threads, a.stream,
        a.num_items⟩ : Launch) ∈ (Dispatch env a cfgR cfgS).launches)
    ∧ ((⟨.aggregate, 1, cfgS.block_threads, a.stream,
        dispatchGrid env a cfgR⟩ : Launch) ∈ (Dispatch env a cfgR cfgS).launches)
    ∧ (∀ b, b < dispatchGrid env a cfgR →
        (execLaunches op d_in (cfgR.block_threads * cfgR.items_per_thread) tilesOf
            (Dispatch env a cfgR cfgS).launches).partials b
          = ReduceTilesKernelRun op d_in a.num_items
              (cfgR.block_threads * cfgR.items_per_thread) tilesOf b
        ∧ ((execLaunches op d_in (cfgR.block_threads * cfgR.items_per_thread)
            tilesOf (Dispatch env a cfgR cfgS).launches).partials b).isSome)
    ∧ (∀ b, dispatchGrid env a cfgR ≤ b →
        (execLaunches op d_in (cfgR.block_threads * cfgR.items_per_thread) tilesOf
            (Dispatch env a cfgR cfgS).launches).partials b = none)
    ∧ ((execLaunches op d_in (cfgR.block_threads * cfgR.items_per_thread) tilesOf
        (Dispatch env a cfgR cfgS).launches).out).isSome := by
  have htrace := dispatch_two_stage_trace env a cfgR cfgS hnull hkern hbig
    h1 h2 h3 hbytes hsync
  rw [htrace]
  have hpre : ∀ l ∈ (if cfgR.grid_mapping = GridMappingStrategy.DYNAMIC then
      [(⟨.prepareDrain, 1, 1, a.stream, a.num_items⟩ : Launch)] else []),
      l.kind = LaunchKind.prepareDrain := by
    intro l hlmem
    by_cases hdyn : cfgR.grid_mapping = GridMappingStrategy.DYNAMIC
    · rw [if_pos hdyn] at hlmem
      simp only [List.mem_singleton] at hlmem
      rw [hlmem]
    · rw [if_neg hdyn] at hlmem
      simp at hlmem
  have hsome : ∀ b, b < dispatchGrid env a cfgR →
      (ReduceTilesKernelRun op d_in a.num_items
        (cfgR.block_threads * cfgR.items_per_thread) tilesOf b).isSome := by
    intro b hb
    apply reduce1_isSome
    exact blockTileItems_ne_nil d_in a.num_items _ (tilesOf b) (hsched.2 b hb)
      (fun t ht => tileIndices_ne_nil a.num_items _ t hts
        (mem_schedule_lt hsched hb ht))
  refine ⟨rfl,
    List.mem_append_right _ (List.mem_cons_self _ _),
    List.mem_append_right _ (List.mem_cons_of_mem _ (List.mem_cons_self _ _)),
    fun b hb => ?_, fun b hb => ?_, ?_⟩
  · rw [execLaunches_two_stage_partials op d_in _ tilesOf _ hpre, if_pos hb]
    exact ⟨rfl, hsome b hb⟩
  · rw [execLaunches_two_stage_partials op d_in _ tilesOf _ hpre,
      if_neg (by omega)]
  · rw [execLaunches_two_stage op d_in _ tilesOf _ hpre]
    have hksome : ∀ b ∈ List.range (dispatchGrid env a cfgR),
        ((fun b => if b < dispatchGrid env a cfgR then
          ReduceTilesKernelRun op d_in a.num_items
            (cfgR.block_threads * cfgR.items_per_thread) tilesOf b
          else none) b).isSome := by
      intro b hb
      have hblt := List.mem_range.mp hb
      simpa [hblt] using hsome b hblt
    obtain ⟨vs, hvs, hmap⟩ := gatherPartials_eq _ _ hksome
    rw [hvs]
    have hlen : vs.length = dispatchGrid env a cfgR := by
      have hl := congrArg List.length hmap
      simpa using hl
    have hg1 : 1 ≤ dispatchGrid env a cfgR :=
      schedule_grid_pos hsched (numTiles_pos _ _ hn hts)
    show (reduce1 op vs).isSome
    apply reduce1_isSome
    intro hnil
    rw [hnil] at hlen
    simp at hlen
    omega

/-- Witness for C10: `Policy300` at 513 items under `envOK` — grid 2, tiles
`{0,1}` split one per block. -/
theorem C10_partials_agree_witness :
    (Dispatch envOK argsBoundaryPlus Policy300.ReduceTilesPolicy
        Policy300.SingleTilePolicy).allocSizes
      = some [dispatchGrid envOK argsBoundaryPlus Policy300.ReduceTilesPolicy * 4,
              gridQueueAllocationSize]
    ∧ ((⟨.reduceTiles,
        dispatchGrid envOK argsBoundaryPlus Policy300.ReduceTilesPolicy,
        256, 0, 513⟩ : Launch)
      ∈ (Dispatch envOK argsBoundaryPlus Policy300.ReduceTilesPolicy
          Policy300.SingleTilePolicy).launches)
    ∧ ((⟨.aggregate, 1, 256, 0,
        dispatchGrid envOK argsBoundaryPlus Policy300.ReduceTilesPolicy⟩ : Launch)
      ∈ (Dispatch envOK argsBoundaryPlus Policy300.ReduceTilesPolicy
          Policy300.SingleTilePolicy).launches)
    ∧ (∀ b, b < dispatchGrid envOK argsBoundaryPlus Policy300.ReduceTilesPolicy →
        (execLaunches Nat.add (fun _ => 1) 512 (fun b => [b])
            (Dispatch envOK argsBoundaryPlus Policy300.ReduceTilesPolicy
              Policy300.SingleTilePolicy).launches).partials b
          = ReduceTilesKernelRun Nat.add (fun _ => 1) 513 512 (fun b => [b]) b
        ∧ ((execLaunches Nat.add (fun _ => 1) 512 (fun b => [b])
            (Dispatch envOK argsBoundaryPlus Policy300.ReduceTilesPolicy
              Policy300.SingleTilePolicy).launches).partials b).isSome)
    ∧ (∀ b, dispatchGrid envOK argsBoundaryPlus Policy300.ReduceTilesPolicy ≤ b →
        (execLaunches Nat.add (fun _ => 1) 512 (fun b => [b])
            (Dispatch envOK argsBoundaryPlus Policy300.ReduceTilesPolicy
              Policy300.SingleTilePolicy).launches).partials b = none)
    ∧ ((execLaunches Nat.add (fun _ => 1) 512 (fun b => [b])
        (Dispatch envOK argsBoundaryPlus Policy300.ReduceTilesPolicy
          Policy300.SingleTilePolicy).launches).out).isSome :=
  C10_partials_agree Nat.add envOK argsBoundaryPlus Policy300.ReduceTilesPolicy
    Policy300.SingleTilePolicy (fun _ => 1) (fun b => [b])
    (by decide) (by decide) (by decide) (by decide) (by decide) (by decide)
    (by decide) (by decide) (by decide) (fun _ => rfl)
    (by constructor
        · decide
        · decide)

end Cub
